import Mathlib

/-!
# MoneyTalk — verification of the trend/insight calculator, AI-recommendation
# cache policy and voice-transcript fallback analyzer

Shallow embedding of the meaningful logic of the MoneyTalk web application:

* `generateBasicInsights` (AIInsights component): spending trends over two
  calendar-week windows, budget alerts, weekend-spending pattern;
* the AI-recommendation localStorage cache (7-day TTL, load / generate /
  manual refresh);
* `analyzeTranscriptFallback` (audio-analysis edge function): regex amount
  extraction and keyword categorisation.

Modelling conventions:

* JavaScript numbers are modelled as `ℚ` (exact arithmetic; the sums,
  divisions and comparisons involved are exact in the rationals).
* A transaction's `created_at` is modelled at day granularity as an integer
  count of days since the Unix epoch (1970-01-01).  All date operations the
  calculator performs (`getDay`, `getMonth`/`getFullYear`, date-fns
  `startOfWeek`/`endOfWeek`/`subWeeks`, `isWithinInterval` against
  week boundaries) are functions of the civil day only, so day granularity
  is an exact model.
* The cache timestamps (`Date.now()`) are modelled as integer milliseconds.
* date-fns week functions use the default `weekStartsOn = 0` (Sunday).
-/

set_option maxHeartbeats 1000000

namespace MoneyTalk

/- Restore kernel-evaluability of rational arithmetic so that concrete
witnesses can be checked by `decide` (these operations are `@[irreducible]`
upstream purely to avoid accidental unfolding). -/
attribute [local semireducible] Rat.add Rat.sub Rat.mul Rat.inv Rat.ofScientific

/-! ## Calendar arithmetic (days since the Unix epoch) -/

/-- Day of week of an epoch day, `0 = Sunday … 6 = Saturday` (epoch day 0,
1970-01-01, was a Thursday).  Mirrors JavaScript `Date.prototype.getDay`. -/
def dayOfWeek (d : ℤ) : ℤ := (d + 4) % 7

/-- First day (Sunday) of the calendar week containing `d`.  Mirrors the
date-fns `startOfWeek` with the default `weekStartsOn = 0`. -/
def weekStart (d : ℤ) : ℤ := d - dayOfWeek d

/-- Last day (Saturday) of the calendar week containing `d` (`endOfWeek`). -/
def weekEnd (d : ℤ) : ℤ := weekStart d + 6

/-- A civil (proleptic Gregorian) calendar date. -/
structure CivilDate where
  year : ℤ
  month : ℤ
  day : ℤ
deriving DecidableEq, Repr

/-- Epoch day → civil date (standard civil-from-days algorithm); gives the
values JavaScript's `getFullYear`/`getMonth` (+1) /`getDate` return. -/
def civilFromDays (z0 : ℤ) : CivilDate :=
  let z := z0 + 719468
  let era := z / 146097
  let doe := z - era * 146097
  let yoe := (doe - doe / 1460 + doe / 36524 - doe / 146096) / 365
  let y := yoe + era * 400
  let doy := doe - (365 * yoe + yoe / 4 - yoe / 100)
  let mp := (5 * doy + 2) / 153
  let d := doy - (153 * mp + 2) / 5 + 1
  let m := mp + (if mp < 10 then 3 else -9)
  ⟨y + (if m ≤ 2 then 1 else 0), m, d⟩

/-- Civil date → epoch day (standard days-from-civil algorithm). -/
def daysFromCivil (c : CivilDate) : ℤ :=
  let y := c.year - (if c.month ≤ 2 then 1 else 0)
  let era := y / 400
  let yoe := y - era * 400
  let mp := c.month + (if 2 < c.month then -3 else 9)
  let doy := (153 * mp + 2) / 5 + c.day - 1
  let doe := yoe * 365 + yoe / 4 - yoe / 100 + doy
  era * 146097 + doe - 719468

/-- Gregorian leap-year test. -/
def isLeapYear (y : ℤ) : Bool := y % 4 = 0 && (y % 100 ≠ 0 || y % 400 = 0)

/-- Number of days in a civil month. -/
def daysInMonth (y m : ℤ) : ℤ :=
  if m = 2 then (if isLeapYear y then 29 else 28)
  else if m = 4 ∨ m = 6 ∨ m = 9 ∨ m = 11 then 30
  else 31

/-- One calendar month earlier, clamping the day-of-month into the target
month.  Mirrors the date-fns `subMonths(date, 1)` semantics. -/
def subOneMonth (c : CivilDate) : CivilDate :=
  if c.month = 1 then ⟨c.year - 1, 12, min c.day (daysInMonth (c.year - 1) 12)⟩
  else ⟨c.year, c.month - 1, min c.day (daysInMonth c.year (c.month - 1))⟩

/-- The day `d` lies in the current month of `now`: same `getMonth()` and
`getFullYear()`. -/
def sameMonth (now d : ℤ) : Bool :=
  let cn := civilFromDays now
  let cd := civilFromDays d
  cd.month = cn.month && cd.year = cn.year

/-! ## Data model -/

/-- Transaction type. -/
inductive TxType where
  | income
  | expense
deriving DecidableEq, Repr

/-- A transaction, as the insight calculator consumes it (`Dashboard`'s
`Transaction` interface; `id`, `user_id`, `description`, `audio_transcript`
and `updated_at` play no role in the verified logic). -/
structure Transaction where
  amount : ℚ
  type : TxType
  category : String
  createdDay : ℤ
deriving DecidableEq, Repr

/-- A user budget limit (`budget_limits` row: `category`, `monthly_limit`). -/
structure BudgetLimit where
  category : String
  monthly_limit : ℚ
deriving DecidableEq, Repr

/-! ## List helpers

JavaScript `Record` objects built by `reduce` are modelled by (a) a lookup
function giving each key's accumulated sum and (b) a key list in first-insertion
order (JS objects preserve the insertion order of string keys). -/

/-- Keys in first-occurrence order, skipping anything already in `seen`
(the key order of a JS object built by repeated `acc[k] = …`). -/
def dedupFirst (seen : List String) : List String → List String
  | [] => []
  | c :: rest => if c ∈ seen then dedupFirst seen rest
                 else c :: dedupFirst (c :: seen) rest

/-- Insert `a` into `l` in front of the first element `b` with `le a b`. -/
def insertSorted (le : α → α → Bool) (a : α) : List α → List α
  | [] => [a]
  | b :: bs => if le a b then a :: b :: bs else b :: insertSorted le a bs

/-- Insertion sort with respect to a boolean comparison (models
`Array.prototype.sort` with a consistent comparator). -/
def sortByLe (le : α → α → Bool) : List α → List α
  | [] => []
  | a :: as => insertSorted le a (sortByLe le as)

/-! ## The insight calculator (`generateBasicInsights`) -/

/-- Total expense spend per category over all given transactions: the
`categorySpending` record of `generateBasicInsights`, looked up with
`categorySpending[c] || 0`.  Note: **no month filter** — the record is built
from the full transaction list. -/
def categorySpend (ts : List Transaction) (c : String) : ℚ :=
  (ts.filter (fun t => t.type == TxType.expense && t.category == c)).foldl
    (fun acc t => acc + t.amount) 0

/-- The key list of the `categorySpending` record (categories having at least
one expense transaction, in first-occurrence order): what
`Object.entries(categorySpending)` iterates over. -/
def expenseCategories (ts : List Transaction) : List String :=
  dedupFirst [] ((ts.filter (fun t => t.type == TxType.expense)).map (·.category))

/-- A budget alert `{category, spent, budget, overBudget}`. -/
structure BudgetAlert where
  category : String
  spent : ℚ
  budget : ℚ
  overBudget : ℚ
deriving DecidableEq, Repr

/-- Budget alerts: for each key of `categorySpending`, look up the first
budget limit with that category (`budgetLimits.find`); if found and
`amount > monthly_limit`, emit the alert. -/
def budgetAlerts (ts : List Transaction) (budgetLimits : List BudgetLimit) :
    List BudgetAlert :=
  (expenseCategories ts).filterMap (fun c =>
    match budgetLimits.find? (fun b => b.category == c) with
    | some b =>
      let amount := categorySpend ts c
      if b.monthly_limit < amount then
        some ⟨c, amount, b.monthly_limit, amount - b.monthly_limit⟩
      else none
    | none => none)

/-- Mirrors `startOfWeek(subWeeks(now, 1))`. -/
def lastWeekStart (now : ℤ) : ℤ := weekStart (now - 7)

/-- Mirrors `endOfWeek(subWeeks(now, 1))`. -/
def lastWeekEnd (now : ℤ) : ℤ := weekEnd (now - 7)

/-- Mirrors `startOfWeek(subWeeks(now, 5))` — the code's "(approximately same week
last month)". -/
def sameWeekLastMonthStart (now : ℤ) : ℤ := weekStart (now - 35)

/-- Mirrors `endOfWeek(subWeeks(now, 5))`. -/
def sameWeekLastMonthEnd (now : ℤ) : ℤ := weekEnd (now - 35)

/-- Models `isWithinInterval` against the window from `s` to `e`, at day granularity. -/
def inIntervalB (s e d : ℤ) : Bool := s ≤ d && d ≤ e

/-- Expense transactions dated inside last week. -/
def lastWeekTransactions (ts : List Transaction) (now : ℤ) : List Transaction :=
  ts.filter (fun t => t.type == TxType.expense &&
    inIntervalB (lastWeekStart now) (lastWeekEnd now) t.createdDay)

/-- Expense transactions dated inside the window five weeks back. -/
def sameWeekLastMonthTransactions (ts : List Transaction) (now : ℤ) :
    List Transaction :=
  ts.filter (fun t => t.type == TxType.expense &&
    inIntervalB (sameWeekLastMonthStart now) (sameWeekLastMonthEnd now) t.createdDay)

/-- Per-category sum over an already-filtered window transaction list
(the `lastWeekCategorySpending` / `sameWeekLastMonthCategorySpending`
records, looked up with `|| 0`). -/
def windowCategorySpend (txs : List Transaction) (c : String) : ℚ :=
  (txs.filter (fun t => t.category == c)).foldl (fun acc t => acc + t.amount) 0

/-- The category set iterated for trends:
`new Set([...keys(lastWeekCategorySpending), ...keys(sameWeekLastMonthCategorySpending)])`
(first-occurrence order). -/
def trendCategories (ts : List Transaction) (now : ℤ) : List String :=
  dedupFirst [] ((lastWeekTransactions ts now).map (·.category) ++
    (sameWeekLastMonthTransactions ts now).map (·.category))

/-- Trend direction. -/
inductive TrendDir where
  | increasing
  | decreasing
  | stable
deriving DecidableEq, Repr

/-- One entry of `spendingTrends`. -/
structure SpendingTrend where
  category : String
  amount : ℚ
  lastMonthAmount : ℚ
  trend : TrendDir
  percentage : ℚ
  isNew : Bool
deriving DecidableEq, Repr

/-- The trend/percentage branch of the `.map(category => …)` body: with a
positive prior-window amount, the signed percentage
`(lastWeek - lastMonth) / lastMonth * 100` classified against the ±5
thresholds; otherwise a new spending category (100, increasing) when the
current week is positive, else (0, stable). -/
def trendPercentagePair (lastWeekAmount lastMonthAmount : ℚ) : TrendDir × ℚ :=
  if 0 < lastMonthAmount then
    let percentage := (lastWeekAmount - lastMonthAmount) / lastMonthAmount * 100
    (if 5 < percentage then TrendDir.increasing
     else if percentage < -5 then TrendDir.decreasing
     else TrendDir.stable, percentage)
  else if 0 < lastWeekAmount then (TrendDir.increasing, 100)
  else (TrendDir.stable, 0)

/-- The per-category trend record built in the `.map(category => …)` body
(the reported `percentage` is `Math.abs` of the signed one). -/
def trendEntry (ts : List Transaction) (now : ℤ) (category : String) :
    SpendingTrend :=
  let lastWeekAmount := windowCategorySpend (lastWeekTransactions ts now) category
  let lastMonthAmount :=
    windowCategorySpend (sameWeekLastMonthTransactions ts now) category
  { category := category
    amount := lastWeekAmount
    lastMonthAmount := lastMonthAmount
    trend := (trendPercentagePair lastWeekAmount lastMonthAmount).1
    percentage := |(trendPercentagePair lastWeekAmount lastMonthAmount).2|
    isNew := lastMonthAmount == 0 && decide (0 < lastWeekAmount) }

/-- The sort comparator `(a, b) => b.amount - a.amount`: `a` may precede `b`
iff `b.amount ≤ a.amount` (descending by current-week amount). -/
def trendLe (a b : SpendingTrend) : Bool := decide (b.amount ≤ a.amount)

/-- The `spendingTrends` pipeline: map over the category set, keep positive current-week
amounts, sort descending by current-week amount, take the top 5. -/
def spendingTrends (ts : List Transaction) (now : ℤ) : List SpendingTrend :=
  (sortByLe trendLe
    (((trendCategories ts now).map (trendEntry ts now)).filter
      (fun e => decide (0 < e.amount)))).take 5

/-- Pattern kind (`type` field of the pushed pattern objects). -/
inductive PatternType where
  | weekend_spending
  | historical_comparison
deriving DecidableEq, Repr

/-- A pattern observation; `value` is the numeric datum interpolated into the
description string (weekend percentage, resp. overall week-on-week change). -/
structure Pattern where
  ptype : PatternType
  value : ℚ
deriving DecidableEq, Repr

/-- Total expense spend on weekend days (`getDay() ∈ {0, 6}`). -/
def weekendSpending (ts : List Transaction) : ℚ :=
  (ts.filter (fun t => t.type == TxType.expense &&
    (dayOfWeek t.createdDay == 0 || dayOfWeek t.createdDay == 6))).foldl
    (fun acc t => acc + t.amount) 0

/-- Total expense spend on weekdays (`1 ≤ getDay() ≤ 5`). -/
def weekdaySpending (ts : List Transaction) : ℚ :=
  (ts.filter (fun t => t.type == TxType.expense &&
    (decide (1 ≤ dayOfWeek t.createdDay) && decide (dayOfWeek t.createdDay ≤ 5)))).foldl
    (fun acc t => acc + t.amount) 0

/-- The `patterns` array: the weekend-spending pattern (pushed when both
totals are positive and the weekend share exceeds 35%), then the
historical-comparison pattern (pushed when trends are nonempty and the
prior-window total is positive). -/
def patterns (ts : List Transaction) (now : ℤ) : List Pattern :=
  let ws := weekendSpending ts
  let wd := weekdaySpending ts
  let weekendPart : List Pattern :=
    if 0 < ws ∧ 0 < wd then
      let weekendPercentage := ws / (ws + wd) * 100
      if 35 < weekendPercentage then
        [⟨PatternType.weekend_spending, weekendPercentage⟩]
      else []
    else []
  let trends := spendingTrends ts now
  let histPart : List Pattern :=
    if trends.isEmpty then []
    else
      let totalLastWeek := (trends.map (·.amount)).sum
      let totalSameWeekLastMonth := (trends.map (·.lastMonthAmount)).sum
      if 0 < totalSameWeekLastMonth then
        [⟨PatternType.historical_comparison,
          (totalLastWeek - totalSameWeekLastMonth) / totalSameWeekLastMonth * 100⟩]
      else []
  weekendPart ++ histPart

/-- The result of `generateBasicInsights` (its `recommendations` field is the
constant `[]` and is omitted; `monthlyData` is computed but never used). -/
structure BasicInsights where
  spendingTrends : List SpendingTrend
  budgetAlerts : List BudgetAlert
  patterns : List Pattern
deriving DecidableEq, Repr

/-- The calculator `generateBasicInsights(transactions, budgetLimits)` at wall-clock day
`now`: empty result on an empty transaction list, otherwise the three
computed components. -/
def generateBasicInsights (ts : List Transaction) (budgetLimits : List BudgetLimit)
    (now : ℤ) : BasicInsights :=
  if ts.isEmpty then ⟨[], [], []⟩
  else ⟨spendingTrends ts now, budgetAlerts ts budgetLimits, patterns ts now⟩

/-! ## Spec-side definitions (for comparison with the code)

These two definitions follow the specification's words, not the source, and
exist only to be compared against the code-derived definitions above. -/

/-- The current-month expense spend per category that the spec's budget-alert
sentence (`categorySpend(monthly)`) refers to: expense transactions whose
`created_at` falls in the month and year of `now`.  (This is also exactly the
month filter that `prepareTransactionSummary` in the same component applies
for its budget-utilization summary.) -/
def currentMonthCategorySpend (ts : List Transaction) (now : ℤ) (c : String) : ℚ :=
  (ts.filter (fun t => sameMonth now t.createdDay && t.type == TxType.expense &&
    t.category == c)).foldl (fun acc t => acc + t.amount) 0

/-- Start of "the calendar week one month prior" to last week, reading the
spec's words with calendar-month arithmetic: step the start of last week back
one calendar month (date-fns `subMonths` clamping) and take that day's week
start. -/
def specSameWeekOneMonthPriorStart (now : ℤ) : ℤ :=
  weekStart (daysFromCivil (subOneMonth (civilFromDays (lastWeekStart now))))

/-- Per-category expense spend inside the spec's "same week one month prior"
window. -/
def specPriorWindowSpend (ts : List Transaction) (now : ℤ) (c : String) : ℚ :=
  let s := specSameWeekOneMonthPriorStart now
  windowCategorySpend
    (ts.filter (fun t => t.type == TxType.expense && inIntervalB s (s + 6) t.createdDay)) c

/-! ## AI-recommendation cache (AIInsights component) -/

/-- A cached payload `{data, timestamp}` (localStorage key
`ai-recommendations-cache`).  Recommendation contents are opaque to the cache
logic, so `data` is a list over an arbitrary type; `timestamp` is in
milliseconds (`Date.now()`). -/
structure CachedRecommendations (α : Type) where
  data : List α
  timestamp : ℤ
deriving DecidableEq, Repr

/-- The constant `cacheValidDuration = 7 * 24 * 60 * 60 * 1000` ms ("1 week"). -/
def cacheValidDuration : ℤ := 7 * 24 * 60 * 60 * 1000

/-- The guard `isCacheValid()`: false without a cache, otherwise
`(now - timestamp) < cacheValidDuration`. -/
def isCacheValid (cache : Option (CachedRecommendations α)) (now : ℤ) : Bool :=
  match cache with
  | none => false
  | some c => decide (now - c.timestamp < cacheValidDuration)

/-- Component state relevant to the recommendation cache: the in-memory cache,
the displayed recommendations, the last-refresh timestamp, the error message,
and the localStorage slot. -/
structure AIState (α : Type) where
  cachedAIRecommendations : Option (CachedRecommendations α)
  aiRecommendations : List α
  lastAIRefresh : Option ℤ
  errorMsg : String
  storage : Option (CachedRecommendations α)
deriving DecidableEq, Repr

/-- Component state before the mount effect runs: nothing cached or displayed,
no error, storage as found. -/
def initialAIState (stored : Option (CachedRecommendations α)) : AIState α :=
  ⟨none, [], none, "", stored⟩

/-- The mount effect: read the stored blob; if fresh
(`now - timestamp < cacheValidDuration`), adopt it into the component state;
if expired, clear state and remove the stored blob.  The second component
records whether the effect invoked recommendation generation: neither branch
of the source calls `generateAIRecommendations`, so it is `false`
throughout. -/
def loadCachedRecommendations (stored : Option (CachedRecommendations α))
    (now : ℤ) : AIState α × Bool :=
  match stored with
  | none => (initialAIState none, false)
  | some c =>
    if now - c.timestamp < cacheValidDuration then
      ({ cachedAIRecommendations := some c
         aiRecommendations := c.data
         lastAIRefresh := some c.timestamp
         errorMsg := ""
         storage := some c }, false)
    else
      ({ cachedAIRecommendations := none
         aiRecommendations := []
         lastAIRefresh := none
         errorMsg := ""
         storage := none }, false)

/-- The error string assigned by the catch branch of
`generateAIRecommendations`. -/
def aiErrorMessage : String :=
  "Failed to generate AI recommendations. Please try refreshing manually."

/-- The action `generateAIRecommendations()`: a no-op when the transaction list is empty;
otherwise the awaited fetch either succeeds (cache, display and storage all
overwritten with `{data, now}`, error cleared) or throws (error message set,
everything else untouched).  The fetch outcome is passed in as an
`Except`. -/
def generateAIRecommendations (st : AIState α) (txCount : ℕ)
    (fetchResult : Except String (List α)) (now : ℤ) : AIState α :=
  if txCount = 0 then st
  else
    match fetchResult with
    | Except.ok recs =>
      { cachedAIRecommendations := some ⟨recs, now⟩
        aiRecommendations := recs
        lastAIRefresh := some now
        errorMsg := ""
        storage := some ⟨recs, now⟩ }
    | Except.error _ => { st with errorMsg := aiErrorMessage }

/-- The action `handleManualRefresh()`: unconditionally clear the stored and in-memory
cache, then run generation. -/
def handleManualRefresh (st : AIState α) (txCount : ℕ)
    (fetchResult : Except String (List α)) (now : ℤ) : AIState α :=
  generateAIRecommendations
    { st with storage := none, cachedAIRecommendations := none }
    txCount fetchResult now

/-! ## Voice-transcript fallback analyzer (`analyzeTranscriptFallback`) -/

/-- The transcript lowercased, as a character list
(`transcript.toLowerCase()`; ASCII lowering). -/
def lowerChars (s : String) : List Char := s.toList.map Char.toLower

/-- The first list begins the second (`needle` then haystack). -/
def startsWithL : List Char → List Char → Bool
  | [], _ => true
  | _ :: _, [] => false
  | a :: as, b :: bs => a == b && startsWithL as bs

/-- JS `text.includes(needle)`: `needle` occurs contiguously in the
haystack. -/
def hasSub (needle : List Char) : List Char → Bool
  | [] => needle.isEmpty
  | b :: bs => startsWithL needle (b :: bs) || hasSub needle bs

/-- Numeric value of a digit character. -/
def digitVal (c : Char) : ℕ := c.toNat - '0'.toNat

/-- Value of a digit string. -/
def natOfDigits (ds : List Char) : ℕ := ds.foldl (fun n c => 10 * n + digitVal c) 0

/-- Attempt the regex `\$?(\d+(?:\.\d{2})?)` anchored at the start of `l`; on
success, the parsed value of the captured group.  The optional `$` is
consumed when present (after it, `\d+` must still match); `\d+` is the
maximal digit run; the fractional part is taken only when a `.` is followed
by two digits, and takes exactly two digits. -/
def matchAmountAt (l : List Char) : Option ℚ :=
  let l' := match l with
    | '$' :: rest => rest
    | _ => l
  let ds := l'.takeWhile Char.isDigit
  if ds.isEmpty then none
  else
    match l'.dropWhile Char.isDigit with
    | '.' :: d1 :: d2 :: _ =>
      if d1.isDigit && d2.isDigit then
        some ((natOfDigits ds : ℚ) + (10 * digitVal d1 + digitVal d2 : ℕ) / 100)
      else some (natOfDigits ds)
    | _ => some (natOfDigits ds)

/-- First match of the amount regex over the text, scanning left to right
(`text.match(/\$?(\d+(?:\.\d{2})?)/)` + `parseFloat`). -/
def scanAmount : List Char → Option ℚ
  | [] => none
  | c :: rest =>
    match matchAmountAt (c :: rest) with
    | some q => some q
    | none => scanAmount rest

/-- The `incomeKeywords` list. -/
def incomeKeywords : List String :=
  ["salary", "income", "paid", "received", "earned", "bonus", "refund"]

/-- The `expenseKeywords` list (computed by the source into an `isExpense` flag that no
returned field depends on: the returned `type` is `isIncome ? 'income' :
'expense'`). -/
def expenseKeywords : List String :=
  ["spent", "bought", "paid for", "cost", "expense", "bill"]

/-- The `categories` keyword table, in source (JS object insertion) order. -/
def categoryKeywordTable : List (String × List String) :=
  [("Groceries", ["grocery", "groceries", "supermarket", "food shopping", "market"]),
   ("Food", ["restaurant", "lunch", "dinner", "breakfast", "cafe", "food"]),
   ("Transport", ["gas", "fuel", "taxi", "uber", "bus", "train", "transport"]),
   ("Shopping", ["shopping", "store", "mall", "online", "amazon", "clothes"]),
   ("Bills", ["bill", "electricity", "water", "internet", "phone", "rent"]),
   ("Drinks", ["coffee", "beer", "wine", "drinks", "bar", "alcohol"]),
   ("Travel", ["flight", "hotel", "vacation", "trip", "travel"]),
   ("Education", ["school", "course", "book", "education", "tuition"]),
   ("Family", ["family", "kids", "children", "babysitter"]),
   ("Salary", ["salary", "paycheck", "wage", "income"]),
   ("Loans", ["loan", "mortgage", "credit", "debt"])]

/-- The category loop: the first table entry with a positive keyword match
count wins, with confidence `min(0.9, 0.6 + matches * 0.1)`; the default is
`("Shopping", 0.5)`. -/
def detectCategory (text : List Char) : List (String × List String) → String × ℚ
  | [] => ("Shopping", 1/2)
  | (cat, kws) :: rest =>
    let matchCount := (kws.filter (fun kw => hasSub kw.toList text)).length
    if 0 < matchCount then (cat, min (9/10) (6/10 + matchCount * (1/10)))
    else detectCategory text rest

/-- The result of the fallback analyzer (the `description` output — a string
replace of the matched amount — is not modelled; no verified claim mentions
it). -/
structure FallbackResult where
  type : TxType
  category : String
  amount : ℚ
  confidence : ℚ
deriving DecidableEq, Repr

/-- The fallback `analyzeTranscriptFallback(transcript)`: regex amount extraction plus
keyword type/category matching over the lowercased transcript. -/
def analyzeTranscriptFallback (transcript : String) : FallbackResult :=
  let text := lowerChars transcript
  let amount := (scanAmount text).getD 0
  let isIncome := incomeKeywords.any (fun kw => hasSub kw.toList text)
  let type := if isIncome then TxType.income else TxType.expense
  let cc := detectCategory text categoryKeywordTable
  ⟨type, cc.1, amount, cc.2⟩

/-! ## Helper lemmas -/

lemma mem_insertSorted (le : α → α → Bool) (a x : α) (l : List α) :
    x ∈ insertSorted le a l ↔ x = a ∨ x ∈ l := by
  induction l with
  | nil => simp [insertSorted]
  | cons b bs ih =>
    cases hle : le a b
    · simp [insertSorted, hle, ih]
      tauto
    · simp [insertSorted, hle, ih]

lemma mem_sortByLe (le : α → α → Bool) (x : α) (l : List α) :
    x ∈ sortByLe le l ↔ x ∈ l := by
  induction l with
  | nil => simp [sortByLe]
  | cons a as ih => simp [sortByLe, mem_insertSorted, ih]

lemma pairwise_insertSorted (le : α → α → Bool)
    (htot : ∀ a b, le a b = false → le b a = true)
    (htrans : ∀ a b c, le a b = true → le b c = true → le a c = true)
    (a : α) (l : List α) (hl : l.Pairwise (fun x y => le x y = true)) :
    (insertSorted le a l).Pairwise (fun x y => le x y = true) := by
  induction l with
  | nil => simp [insertSorted]
  | cons b bs ih =>
    rcases List.pairwise_cons.1 hl with ⟨hb, hbs⟩
    cases hle : le a b
    · simp only [insertSorted, hle, Bool.false_eq_true, if_false]
      refine List.pairwise_cons.2 ⟨?_, ih hbs⟩
      intro x hx
      rcases (mem_insertSorted le a x bs).1 hx with rfl | hxbs
      · exact htot _ _ hle
      · exact hb x hxbs
    · simp only [insertSorted, hle, if_true]
      refine List.pairwise_cons.2 ⟨?_, hl⟩
      intro x hx
      rcases List.mem_cons.1 hx with rfl | hxbs
      · exact hle
      · exact htrans _ _ _ hle (hb x hxbs)

lemma pairwise_sortByLe (le : α → α → Bool)
    (htot : ∀ a b, le a b = false → le b a = true)
    (htrans : ∀ a b c, le a b = true → le b c = true → le a c = true)
    (l : List α) :
    (sortByLe le l).Pairwise (fun x y => le x y = true) := by
  induction l with
  | nil => simp [sortByLe]
  | cons a as ih => exact pairwise_insertSorted le htot htrans a _ ih

lemma trendEntry_amount (ts : List Transaction) (now : ℤ) (c : String) :
    (trendEntry ts now c).amount
      = windowCategorySpend (lastWeekTransactions ts now) c := rfl

lemma trendEntry_lastMonthAmount (ts : List Transaction) (now : ℤ) (c : String) :
    (trendEntry ts now c).lastMonthAmount
      = windowCategorySpend (sameWeekLastMonthTransactions ts now) c := rfl

lemma trendEntry_isNew (ts : List Transaction) (now : ℤ) (c : String) :
    (trendEntry ts now c).isNew
      = ((windowCategorySpend (sameWeekLastMonthTransactions ts now) c == 0) &&
          decide (0 < windowCategorySpend (lastWeekTransactions ts now) c)) := rfl

lemma trendEntry_trend (ts : List Transaction) (now : ℤ) (c : String) :
    (trendEntry ts now c).trend
      = (trendPercentagePair (windowCategorySpend (lastWeekTransactions ts now) c)
          (windowCategorySpend (sameWeekLastMonthTransactions ts now) c)).1 := rfl

lemma trendEntry_percentage (ts : List Transaction) (now : ℤ) (c : String) :
    (trendEntry ts now c).percentage
      = |(trendPercentagePair (windowCategorySpend (lastWeekTransactions ts now) c)
          (windowCategorySpend (sameWeekLastMonthTransactions ts now) c)).2| := rfl

/-- Every emitted trend entry is `trendEntry` of some category. -/
lemma mem_spendingTrends (ts : List Transaction) (now : ℤ) (e : SpendingTrend)
    (he : e ∈ spendingTrends ts now) :
    (∃ c, trendEntry ts now c = e) ∧ 0 < e.amount := by
  have h1 : e ∈ sortByLe trendLe
      (((trendCategories ts now).map (trendEntry ts now)).filter
        (fun e => decide (0 < e.amount))) :=
    List.take_subset 5 _ he
  have h2 := (mem_sortByLe _ _ _).1 h1
  have h3 := List.mem_filter.1 h2
  refine ⟨?_, of_decide_eq_true h3.2⟩
  rcases List.mem_map.1 h3.1 with ⟨c, -, hc⟩
  exact ⟨c, hc⟩

lemma foldl_add_amount (l : List Transaction) (q : ℚ) :
    l.foldl (fun acc t => acc + t.amount) q = q + (l.map (·.amount)).sum := by
  induction l generalizing q with
  | nil => simp
  | cons t rest ih => simp [ih]; ring

/-- Total expense spend over all transactions — the "total expense spending"
denominator of the spec's weekend-share sentence. -/
def totalExpenseSpending (ts : List Transaction) : ℚ :=
  ((ts.filter (fun t => t.type == TxType.expense)).map (·.amount)).sum

lemma weekendSpending_eq_sum (ts : List Transaction) :
    weekendSpending ts = ((ts.filter (fun t => t.type == TxType.expense &&
      (dayOfWeek t.createdDay == 0 || dayOfWeek t.createdDay == 6))).map
        (·.amount)).sum := by
  unfold weekendSpending
  rw [foldl_add_amount, zero_add]

lemma weekdaySpending_eq_sum (ts : List Transaction) :
    weekdaySpending ts = ((ts.filter (fun t => t.type == TxType.expense &&
      (decide (1 ≤ dayOfWeek t.createdDay) &&
        decide (dayOfWeek t.createdDay ≤ 5)))).map (·.amount)).sum := by
  unfold weekdaySpending
  rw [foldl_add_amount, zero_add]

/-- Every expense day is a weekend day or a weekday, so the two totals split
the total expense spend. -/
lemma weekend_plus_weekday (ts : List Transaction) :
    weekendSpending ts + weekdaySpending ts = totalExpenseSpending ts := by
  rw [weekendSpending_eq_sum, weekdaySpending_eq_sum]
  unfold totalExpenseSpending
  induction ts with
  | nil => simp
  | cons t rest ih =>
    have h0 : 0 ≤ dayOfWeek t.createdDay := by
      unfold dayOfWeek; omega
    have h6 : dayOfWeek t.createdDay ≤ 6 := by
      unfold dayOfWeek; omega
    by_cases he : t.type == TxType.expense
    · by_cases hw : (dayOfWeek t.createdDay == 0 || dayOfWeek t.createdDay == 6)
      · have hd : ¬ (decide (1 ≤ dayOfWeek t.createdDay) &&
            decide (dayOfWeek t.createdDay ≤ 5)) = true := by
          simp only [beq_iff_eq, Bool.or_eq_true] at hw
          simp only [Bool.and_eq_true, decide_eq_true_iff]
          omega
        simp [List.filter_cons, he, hw, hd]
        linarith [ih]
      · have hd : (decide (1 ≤ dayOfWeek t.createdDay) &&
            decide (dayOfWeek t.createdDay ≤ 5)) = true := by
          simp only [beq_iff_eq, Bool.or_eq_true] at hw
          simp only [Bool.and_eq_true, decide_eq_true_iff]
          omega
        simp [List.filter_cons, he, hw, hd]
        linarith [ih]
    · simp only [List.filter_cons, he, Bool.false_and, if_false]
      exact ih

/-- With positive transaction amounts, each of the aggregate spends is
nonnegative. -/
lemma filtered_spend_nonneg (ts : List Transaction) (p : Transaction → Bool)
    (hpos : ∀ t ∈ ts, 0 < t.amount) :
    0 ≤ ((ts.filter p).map (·.amount)).sum := by
  apply List.sum_nonneg
  intro x hx
  rcases List.mem_map.1 hx with ⟨t, ht, rfl⟩
  exact le_of_lt (hpos t (List.mem_of_mem_filter ht))

/-! ## Theorems -/

/-- C5: a stored cache `{data, timestamp}` is valid iff
`now - timestamp < 7*24*60*60*1000` (so it is invalid at exactly seven days),
and the mount effect resets an expired cache to the cleared initial state —
storage slot removed included — without invoking generation. -/
theorem cache_seven_day_validity_and_expired_load {α : Type}
    (c : CachedRecommendations α) (now : ℤ) :
    (isCacheValid (some c) now = true ↔
      now - c.timestamp < 7 * 24 * 60 * 60 * 1000) ∧
    isCacheValid (some c) (c.timestamp + 7 * 24 * 60 * 60 * 1000) = false ∧
    (7 * 24 * 60 * 60 * 1000 ≤ now - c.timestamp →
      loadCachedRecommendations (some c) now = (initialAIState none, false)) := by
  refine ⟨?_, ?_, fun h => ?_⟩
  · simp [isCacheValid, cacheValidDuration]
  · simp [isCacheValid, cacheValidDuration]
  · have hlt : ¬ (now - c.timestamp < cacheValidDuration) := by
      simp only [cacheValidDuration]; omega
    simp only [loadCachedRecommendations, if_neg hlt]
    rfl

/-- C5 witness: at exactly seven days past the stored timestamp the cache is
expired and the mount effect clears it. -/
theorem cache_seven_day_validity_witness :
    loadCachedRecommendations (some (⟨[], 0⟩ : CachedRecommendations Unit))
      604800000 = (initialAIState none, false) :=
  (cache_seven_day_validity_and_expired_load ⟨[], 0⟩ 604800000).2.2 (by decide)

/-- C6: when the fetch fails, `generateAIRecommendations` leaves the cached
and displayed recommendations (and the stored blob) unchanged and surfaces
the user-visible error string; when it succeeds, it overwrites the cache and
storage with the new data paired with the current timestamp and displays the
new data. -/
theorem generate_failure_keeps_cache_success_overwrites {α : Type}
    (st : AIState α) (n : ℕ) (e : String) (recs : List α) (now : ℤ)
    (hn : n ≠ 0) :
    ((generateAIRecommendations st n (Except.error e) now).cachedAIRecommendations
        = st.cachedAIRecommendations ∧
     (generateAIRecommendations st n (Except.error e) now).aiRecommendations
        = st.aiRecommendations ∧
     (generateAIRecommendations st n (Except.error e) now).storage = st.storage ∧
     (generateAIRecommendations st n (Except.error e) now).errorMsg
        = aiErrorMessage) ∧
    ((generateAIRecommendations st n (Except.ok recs) now).cachedAIRecommendations
        = some ⟨recs, now⟩ ∧
     (generateAIRecommendations st n (Except.ok recs) now).storage
        = some ⟨recs, now⟩ ∧
     (generateAIRecommendations st n (Except.ok recs) now).aiRecommendations
        = recs) := by
  simp [generateAIRecommendations, hn]

/-- C6 witness: the failure and success cases evaluated at a concrete state
with one transaction. -/
theorem generate_failure_success_witness :
    (((generateAIRecommendations (initialAIState (α := Unit) none) 1
        (Except.error "network error") 5).cachedAIRecommendations
        = (initialAIState (α := Unit) none).cachedAIRecommendations ∧
      (generateAIRecommendations (initialAIState (α := Unit) none) 1
        (Except.error "network error") 5).aiRecommendations
        = (initialAIState (α := Unit) none).aiRecommendations ∧
      (generateAIRecommendations (initialAIState (α := Unit) none) 1
        (Except.error "network error") 5).storage
        = (initialAIState (α := Unit) none).storage ∧
      (generateAIRecommendations (initialAIState (α := Unit) none) 1
        (Except.error "network error") 5).errorMsg = aiErrorMessage) ∧
     ((generateAIRecommendations (initialAIState (α := Unit) none) 1
        (Except.ok [()]) 5).cachedAIRecommendations = some ⟨[()], 5⟩ ∧
      (generateAIRecommendations (initialAIState (α := Unit) none) 1
        (Except.ok [()]) 5).storage = some ⟨[()], 5⟩ ∧
      (generateAIRecommendations (initialAIState (α := Unit) none) 1
        (Except.ok [()]) 5).aiRecommendations = [()])) :=
  generate_failure_keeps_cache_success_overwrites (initialAIState none) 1
    "network error" [()] 5 (by decide)

/-- C7: any transcript containing one of the income keywords is classified as
income by the fallback analyzer, whatever else it contains. -/
theorem fallback_income_keyword_forces_income (transcript : String)
    (h : incomeKeywords.any
      (fun kw => hasSub kw.toList (lowerChars transcript)) = true) :
    (analyzeTranscriptFallback transcript).type = TxType.income := by
  simp only [analyzeTranscriptFallback, h, if_true]

/-- C7 witness: "Paid $50 for gas" contains the income keyword "paid" and is
classified as income (not expense), although it is phrased as an expense. -/
theorem fallback_income_keyword_witness :
    (analyzeTranscriptFallback "Paid $50 for gas").type = TxType.income :=
  fallback_income_keyword_forces_income "Paid $50 for gas" (by decide)

/-- C8: the emitted `spendingTrends` list has at most 5 entries, is sorted by
current-week amount in descending order, and every entry has a strictly
positive current-week amount (so a category with prior-window spending but no
last-week spending never appears). -/
theorem spendingTrends_top5_sorted_positive (ts : List Transaction) (now : ℤ) :
    (spendingTrends ts now).length ≤ 5 ∧
    (spendingTrends ts now).Pairwise (fun a b => b.amount ≤ a.amount) ∧
    ∀ e ∈ spendingTrends ts now, 0 < e.amount := by
  refine ⟨?_, ?_, fun e he => (mem_spendingTrends ts now e he).2⟩
  · exact List.length_take_le 5 _
  · have htot : ∀ a b : SpendingTrend, trendLe a b = false → trendLe b a = true := by
      intro a b h
      simp only [trendLe, decide_eq_false_iff_not, not_le] at h
      simpa [trendLe, decide_eq_true_iff] using le_of_lt h
    have htrans : ∀ a b c : SpendingTrend,
        trendLe a b = true → trendLe b c = true → trendLe a c = true := by
      intro a b c hab hbc
      simp only [trendLe, decide_eq_true_iff] at hab hbc ⊢
      exact le_trans hbc hab
    have hp := pairwise_sortByLe trendLe htot htrans
      (((trendCategories ts now).map (trendEntry ts now)).filter
        (fun e => decide (0 < e.amount)))
    have hp' := hp.imp
      (fun {a b} h => by
        simpa [trendLe, decide_eq_true_iff] using h :
        ∀ {a b : SpendingTrend}, trendLe a b = true → b.amount ≤ a.amount)
    exact List.Pairwise.sublist (List.take_sublist 5 _) hp'

/-- C8 witness data: two expense transactions inside last week relative to
2024-08-18. -/
def tsC8 : List Transaction :=
  [⟨40, TxType.expense, "Fun", 19952⟩, ⟨60, TxType.expense, "Rent", 19947⟩]

/-- C8 witness: the bound, and positivity for a concrete emitted entry with
the membership hypothesis discharged. -/
theorem spendingTrends_top5_sorted_positive_witness :
    (spendingTrends tsC8 19953).length ≤ 5 ∧
    0 < (trendEntry tsC8 19953 "Fun").amount :=
  ⟨(spendingTrends_top5_sorted_positive tsC8 19953).1,
   (spendingTrends_top5_sorted_positive tsC8 19953).2.2
     (trendEntry tsC8 19953 "Fun") (by decide)⟩

/-- C3: each emitted trend entry's `percentage` equals
`|lastWeek - prior| / prior * 100` whenever the prior-window amount is
positive, and its `isNew` flag is true iff the prior-window amount is zero
and the last-week amount is positive. -/
theorem trend_percentage_and_isNew (ts : List Transaction) (now : ℤ)
    (e : SpendingTrend) (he : e ∈ spendingTrends ts now) :
    (0 < e.lastMonthAmount →
      e.percentage = |e.amount - e.lastMonthAmount| / e.lastMonthAmount * 100) ∧
    (e.isNew = true ↔ (e.lastMonthAmount = 0 ∧ 0 < e.amount)) := by
  obtain ⟨⟨c, rfl⟩, hpos⟩ := mem_spendingTrends ts now e he
  rw [trendEntry_amount, trendEntry_lastMonthAmount, trendEntry_percentage,
    trendEntry_isNew]
  set lw := windowCategorySpend (lastWeekTransactions ts now) c
  set lm := windowCategorySpend (sameWeekLastMonthTransactions ts now) c
  constructor
  · intro h
    have hpair : (trendPercentagePair lw lm).2 = (lw - lm) / lm * 100 := by
      unfold trendPercentagePair
      rw [if_pos h]
    rw [hpair, abs_mul, abs_div, abs_of_pos h]
    norm_num
  · simp

/-- C3 witness: a concrete pair of transactions producing one emitted entry
with positive prior spend. -/
def tsC3 : List Transaction :=
  [⟨50, TxType.expense, "Food", 19946⟩, ⟨100, TxType.expense, "Food", 19918⟩]

/-- C3 witness: on `tsC3` at 2024-08-18, the single emitted trend entry
satisfies both conjuncts, with the percentage hypothesis discharged. -/
theorem trend_percentage_and_isNew_witness :
    (trendEntry tsC3 19953 "Food").percentage
      = |(trendEntry tsC3 19953 "Food").amount
          - (trendEntry tsC3 19953 "Food").lastMonthAmount|
        / (trendEntry tsC3 19953 "Food").lastMonthAmount * 100 ∧
    ((trendEntry tsC3 19953 "Food").isNew = true ↔
      ((trendEntry tsC3 19953 "Food").lastMonthAmount = 0 ∧
        0 < (trendEntry tsC3 19953 "Food").amount)) :=
  ⟨(trend_percentage_and_isNew tsC3 19953 _ (by decide)).1 (by decide),
   (trend_percentage_and_isNew tsC3 19953 _ (by decide)).2⟩

/-- C4: for any category, with positive prior-window spend the trend is
`increasing` iff the signed percentage change exceeds 5, `decreasing` iff it
is below -5, and `stable` otherwise; with zero prior spend and positive
current spend the reported percentage change is 100. -/
theorem trend_classification (ts : List Transaction) (now : ℤ) (c : String) :
    (0 < (trendEntry ts now c).lastMonthAmount →
      (((trendEntry ts now c).trend = TrendDir.increasing ↔
          5 < ((trendEntry ts now c).amount - (trendEntry ts now c).lastMonthAmount)
              / (trendEntry ts now c).lastMonthAmount * 100) ∧
       ((trendEntry ts now c).trend = TrendDir.decreasing ↔
          ((trendEntry ts now c).amount - (trendEntry ts now c).lastMonthAmount)
              / (trendEntry ts now c).lastMonthAmount * 100 < -5) ∧
       ((trendEntry ts now c).trend = TrendDir.stable ↔
          (-5 ≤ ((trendEntry ts now c).amount - (trendEntry ts now c).lastMonthAmount)
              / (trendEntry ts now c).lastMonthAmount * 100 ∧
           ((trendEntry ts now c).amount - (trendEntry ts now c).lastMonthAmount)
              / (trendEntry ts now c).lastMonthAmount * 100 ≤ 5)))) ∧
    ((trendEntry ts now c).lastMonthAmount = 0 →
      0 < (trendEntry ts now c).amount →
      (trendEntry ts now c).percentage = 100) := by
  rw [trendEntry_amount, trendEntry_lastMonthAmount, trendEntry_percentage,
    trendEntry_trend]
  set lw := windowCategorySpend (lastWeekTransactions ts now) c
  set lm := windowCategorySpend (sameWeekLastMonthTransactions ts now) c
  constructor
  · intro h
    set pct := (lw - lm) / lm * 100 with hpct
    have htr : (trendPercentagePair lw lm).1 =
        (if 5 < pct then TrendDir.increasing
         else if pct < -5 then TrendDir.decreasing else TrendDir.stable) := by
      unfold trendPercentagePair
      rw [if_pos h]
    by_cases h1 : 5 < pct
    · rw [htr, if_pos h1]
      refine ⟨⟨fun _ => h1, fun _ => rfl⟩, ?_, ?_⟩
      · exact ⟨fun hh => absurd hh (by decide), fun hh => by linarith⟩
      · exact ⟨fun hh => absurd hh (by decide), fun hh => by
          rcases hh with ⟨-, hh⟩; linarith⟩
    · by_cases h2 : pct < -5
      · rw [htr, if_neg h1, if_pos h2]
        refine ⟨?_, ⟨fun _ => h2, fun _ => rfl⟩, ?_⟩
        · exact ⟨fun hh => absurd hh (by decide), fun hh => absurd hh h1⟩
        · exact ⟨fun hh => absurd hh (by decide), fun hh => by
            rcases hh with ⟨hh, -⟩; linarith⟩
      · rw [htr, if_neg h1, if_neg h2]
        have ha : -5 ≤ pct := not_lt.1 h2
        have hb : pct ≤ 5 := not_lt.1 h1
        refine ⟨?_, ?_, ⟨fun _ => ⟨ha, hb⟩, fun _ => rfl⟩⟩
        · exact ⟨fun hh => absurd hh (by decide), fun hh => absurd hh h1⟩
        · exact ⟨fun hh => absurd hh (by decide), fun hh => absurd hh h2⟩
  · intro hz hlw
    have hpair : (trendPercentagePair lw lm).2 = 100 := by
      unfold trendPercentagePair
      rw [if_neg (by rw [hz]; exact lt_irrefl 0), if_pos hlw]
    rw [hpair]
    norm_num

/-- C4 witness: concrete transactions giving one category with positive prior
spend (classified `decreasing` at -50%) and one new category (100%). -/
def tsC4 : List Transaction :=
  [⟨50, TxType.expense, "Food", 19946⟩, ⟨100, TxType.expense, "Food", 19918⟩,
   ⟨30, TxType.expense, "Fun", 19946⟩]

/-- C4 witness: classification and the new-category percentage evaluated on
`tsC4` at 2024-08-18, hypotheses discharged. -/
theorem trend_classification_witness :
    ((trendEntry tsC4 19953 "Food").trend = TrendDir.decreasing ↔
      ((trendEntry tsC4 19953 "Food").amount
          - (trendEntry tsC4 19953 "Food").lastMonthAmount)
        / (trendEntry tsC4 19953 "Food").lastMonthAmount * 100 < -5) ∧
    (trendEntry tsC4 19953 "Fun").percentage = 100 :=
  ⟨((trend_classification tsC4 19953 "Food").1 (by decide)).2.1,
   (trend_classification tsC4 19953 "Fun").2 (by decide) (by decide)⟩

/-- C9: the weekend-spending pattern is emitted iff the weekend and weekday
expense totals are both nonzero and the weekend share of total expense
spending strictly exceeds 35%. -/
theorem weekend_pattern_iff (ts : List Transaction) (now : ℤ)
    (hpos : ∀ t ∈ ts, 0 < t.amount) :
    (∃ p ∈ patterns ts now, p.ptype = PatternType.weekend_spending) ↔
      (weekendSpending ts ≠ 0 ∧ weekdaySpending ts ≠ 0 ∧
        35 < weekendSpending ts / totalExpenseSpending ts * 100) := by
  have hsplit := weekend_plus_weekday ts
  have hws0 : 0 ≤ weekendSpending ts := by
    rw [weekendSpending_eq_sum]; exact filtered_spend_nonneg ts _ hpos
  have hwd0 : 0 ≤ weekdaySpending ts := by
    rw [weekdaySpending_eq_sum]; exact filtered_spend_nonneg ts _ hpos
  rw [← hsplit]
  by_cases h1 : 0 < weekendSpending ts ∧ 0 < weekdaySpending ts
  · by_cases h2 : 35 < weekendSpending ts /
        (weekendSpending ts + weekdaySpending ts) * 100
    · constructor
      · intro _
        exact ⟨ne_of_gt h1.1, ne_of_gt h1.2, h2⟩
      · intro _
        refine ⟨⟨PatternType.weekend_spending,
          weekendSpending ts / (weekendSpending ts + weekdaySpending ts) * 100⟩,
          ?_, rfl⟩
        simp only [patterns, if_pos h1, if_pos h2]
        exact List.mem_append_left _ (List.mem_singleton.2 rfl)
    · constructor
      · rintro ⟨p, hp, hpt⟩
        exfalso
        simp only [patterns, if_pos h1, if_neg h2, List.nil_append] at hp
        split_ifs at hp <;> simp_all
      · rintro ⟨-, -, h⟩
        exact absurd h h2
  · constructor
    · rintro ⟨p, hp, hpt⟩
      exfalso
      simp only [patterns, if_neg h1, List.nil_append] at hp
      split_ifs at hp <;> simp_all
    · rintro ⟨hws, hwd, -⟩
      exact absurd ⟨lt_of_le_of_ne hws0 (Ne.symm hws),
        lt_of_le_of_ne hwd0 (Ne.symm hwd)⟩ h1

/-- C9 witness data: one Saturday expense of 40 and one Monday expense of 60
(weekend share 40%). -/
def tsC9 : List Transaction :=
  [⟨40, TxType.expense, "Fun", 19952⟩, ⟨60, TxType.expense, "Rent", 19947⟩]

/-- C9 witness: the equivalence instantiated on `tsC9` at 2024-08-18, with
the positivity hypothesis discharged. -/
theorem weekend_pattern_iff_witness :
    (∃ p ∈ patterns tsC9 19953, p.ptype = PatternType.weekend_spending) ↔
      (weekendSpending tsC9 ≠ 0 ∧ weekdaySpending tsC9 ≠ 0 ∧
        35 < weekendSpending tsC9 / totalExpenseSpending tsC9 * 100) :=
  weekend_pattern_iff tsC9 19953 (by decide)

/-- C1 failing input: a single Food expense of 100 dated 2024-06-26 (epoch
day 19900). -/
def tsC1 : List Transaction := [⟨100, TxType.expense, "Food", 19900⟩]

/-- C1 failing input: a Food budget with monthly limit 50. -/
def blC1 : List BudgetLimit := [⟨"Food", 50⟩]

/-- C1 (code bug): at wall-clock day 19953 (2024-08-18), `tsC1`/`blC1` make
the calculator emit a Food budget alert with `overBudget = 50` although the
current-month (August 2024) Food spend is 0 and does not exceed the limit:
the alert path compares the **all-time** category spend against the monthly
limit, while the claim (and the monthly semantics of `monthly_limit`, as in
`prepareTransactionSummary`'s budget utilization) requires the current-month
spend. -/
theorem budget_alert_uses_all_time_spend :
    (generateBasicInsights tsC1 blC1 19953).budgetAlerts
      = [⟨"Food", 100, 50, 50⟩] ∧
    currentMonthCategorySpend tsC1 19953 "Food" = 0 ∧
    ¬ (50 : ℚ) < currentMonthCategorySpend tsC1 19953 "Food" ∧
    civilFromDays 19953 = ⟨2024, 8, 18⟩ ∧
    civilFromDays 19900 = ⟨2024, 6, 26⟩ := by
  decide

/-- C2 counterexample data: a Food expense of 100 on 2024-07-08 (inside the
calendar week one month prior to last week) and one of 50 on 2024-08-11
(inside last week). -/
def tsC2 : List Transaction :=
  [⟨100, TxType.expense, "Food", 19912⟩, ⟨50, TxType.expense, "Food", 19946⟩]

/-- C2 counterexample: at 2024-08-18 the code's prior window is the calendar
week of 2024-07-14 (a fixed 35 days back from `now`), **not** the calendar
week one month prior to last week (the week of 2024-07-07): the window starts
differ, and a Food expense inside the true one-month-prior week is not
counted — the emitted trend entry reports a prior-window amount of 0 (and is
marked new) while the one-month-prior week's Food spend is 100. -/
theorem trend_window_not_one_month_prior :
    sameWeekLastMonthStart 19953 ≠ specSameWeekOneMonthPriorStart 19953 ∧
    specSameWeekOneMonthPriorStart 19953 = daysFromCivil ⟨2024, 7, 7⟩ ∧
    sameWeekLastMonthStart 19953 = daysFromCivil ⟨2024, 7, 14⟩ ∧
    civilFromDays 19912 = ⟨2024, 7, 8⟩ ∧
    (spendingTrends tsC2 19953).map (fun e => (e.category, e.lastMonthAmount))
      = [("Food", 0)] ∧
    specPriorWindowSpend tsC2 19953 "Food" = 100 := by
  decide

lemma dayOfWeek_weekStart (d : ℤ) : dayOfWeek (weekStart d) = 0 := by
  simp only [weekStart, dayOfWeek]
  omega

/-- Per-category sums over a filtered window, as plain list sums. -/
lemma window_spend_eq_sum (ts : List Transaction) (q : Transaction → Bool)
    (c : String) :
    windowCategorySpend (ts.filter q) c
      = ((ts.filter (fun t => t.category == c && q t)).map (·.amount)).sum := by
  unfold windowCategorySpend
  rw [List.filter_filter, foldl_add_amount, zero_add]

/-- C2 (amended): the two trend windows are whole calendar weeks — the week
containing `now - 7` (last week) and the week containing `now - 35`, which
starts exactly 28 days (four weeks) before last week — and each emitted
category amount is the sum of the expense amounts of that category falling
in the respective window. -/
theorem trend_windows_calendar_weeks (ts : List Transaction) (now : ℤ)
    (c : String) :
    dayOfWeek (lastWeekStart now) = 0 ∧
    lastWeekEnd now = lastWeekStart now + 6 ∧
    lastWeekStart now ≤ now - 7 ∧ now - 7 ≤ lastWeekEnd now ∧
    dayOfWeek (sameWeekLastMonthStart now) = 0 ∧
    sameWeekLastMonthEnd now = sameWeekLastMonthStart now + 6 ∧
    sameWeekLastMonthStart now = lastWeekStart now - 28 ∧
    (trendEntry ts now c).amount =
      ((ts.filter (fun t => t.category == c && (t.type == TxType.expense &&
          inIntervalB (lastWeekStart now) (lastWeekEnd now) t.createdDay))).map
        (·.amount)).sum ∧
    (trendEntry ts now c).lastMonthAmount =
      ((ts.filter (fun t => t.category == c && (t.type == TxType.expense &&
          inIntervalB (sameWeekLastMonthStart now) (sameWeekLastMonthEnd now)
            t.createdDay))).map (·.amount)).sum := by
  refine ⟨dayOfWeek_weekStart _, rfl, ?_, ?_, dayOfWeek_weekStart _, rfl, ?_,
    ?_, ?_⟩
  · simp only [lastWeekStart, weekStart, dayOfWeek]
    omega
  · simp only [lastWeekEnd, lastWeekStart, weekEnd, weekStart, dayOfWeek]
    omega
  · simp only [sameWeekLastMonthStart, lastWeekStart, weekStart, dayOfWeek]
    omega
  · rw [trendEntry_amount]
    exact window_spend_eq_sum ts _ c
  · rw [trendEntry_lastMonthAmount]
    exact window_spend_eq_sum ts _ c

/-- C10: the fallback categorizer maps "I spent $25 on groceries" to an
expense of 25 in Groceries, and "Got paid $2000 salary" to an income of 2000
in Salary. -/
theorem fallback_categorizer_examples :
    ((analyzeTranscriptFallback "I spent $25 on groceries").type
        = TxType.expense ∧
     (analyzeTranscriptFallback "I spent $25 on groceries").category
        = "Groceries" ∧
     (analyzeTranscriptFallback "I spent $25 on groceries").amount = 25) ∧
    ((analyzeTranscriptFallback "Got paid $2000 salary").type
        = TxType.income ∧
     (analyzeTranscriptFallback "Got paid $2000 salary").category = "Salary" ∧
     (analyzeTranscriptFallback "Got paid $2000 salary").amount = 2000) := by
  decide

end MoneyTalk
